import Mathlib

/-!
Shallow embedding of the authentication-gate middleware in
`auth_wrapper.py` (class `AuthGateMiddleware`, module constants
`API_KEY`, `COOKIE_NAME`, `COOKIE_VALUE`, `COOKIE_MAX_AGE`, `OPEN_PATHS`),
together with theorems settling the specification claims about it.

The middleware is a pure decision function from an inbound HTTP request
(path, method, authorization header, the `fw_auth` cookie, and the parsed
JSON request body) to either a direct response, a pass-through to the
wrapped downstream application, or an escaped Python exception.

Modelling conventions:
- `hashlib.sha256(x.encode()).hexdigest()` is Python-stdlib code, not
  repository code; it is carried as an abstract function field
  `sha256hex` of the configuration, about which theorems assume only
  what SHA-256 hex digests guarantee (64 characters) where needed.
- The two large static HTML pages `LOGIN_HTML` and `APP_HTML` are opaque
  static content; the configuration carries their text as
  `loginHtml` and `appHtml`.
- `os.environ.get("API_KEY", "")` is the `apiKey` field of the
  configuration; Python truthiness of a string is emptiness testing.
- `json.loads` outcomes are embedded as `BodyParse`: either one of the
  two caught exceptions (`JSONDecodeError` / `UnicodeDecodeError`), or a
  parsed Python value `PyJson`.  `dict.get` on a parsed non-dict value
  raises `AttributeError`, embedded as the `pythonError` outcome.
-/

set_option maxRecDepth 10000

namespace AuthWrapper

/-- Python `s.startswith(pre)`: does the character sequence of `pre`
occur at the start of the character sequence of `s`? -/
def strStartsWith (s pre : String) : Bool :=
  pre.data.isPrefixOf s.data

/-- A Python value produced by `json.loads`: JSON null, booleans, numbers,
strings, arrays and objects.  Objects keep their fields in order; as in
Python's `json.loads`, a duplicated field name keeps the last value. -/
inductive PyJson where
  | null
  | bool (b : Bool)
  | num (n : Int)
  | str (s : String)
  | arr (elems : List PyJson)
  | obj (fields : List (String × PyJson))

/-- Python `dict.get k` on a dict built by `json.loads`: the value of the
last field named `k`, if any. -/
def dictGet (fields : List (String × PyJson)) (k : String) : Option PyJson :=
  (fields.reverse.find? (fun p => p.1 == k)).map (fun p => p.2)

/-- Python `v == s` where `s` is a `str`: true exactly when `v` is a `str`
with the same characters (`None == s` and non-string values compare
unequal to a string). -/
def pyEqStr : Option PyJson → String → Bool
  | some (.str s), t => s == t
  | _, _ => false

/-- Outcome of `json.loads(await request.body())` on the validate path:
`invalid` when it raises `json.JSONDecodeError` or `UnicodeDecodeError`
(the two exceptions the source catches), otherwise the parsed value. -/
inductive BodyParse where
  | invalid
  | parsed (v : PyJson)

/-- The parts of a Starlette `Request` the middleware reads:
`request.url.path`, `request.method`,
`request.headers.get("authorization")` and
`request.cookies.get(COOKIE_NAME)` (each `none` when absent), and the
parse outcome of the body (read only on the validate path). -/
structure Request where
  path : String
  method : String
  authorization : Option String
  fwAuthCookie : Option String
  body : BodyParse

/-- The arguments of `response.set_cookie(...)` in the validate handler. -/
structure CookieSet where
  name : String
  value : String
  maxAge : Nat
  httponly : Bool
  samesite : String
  secure : Bool

/-- A direct response built by the middleware: an `HTMLResponse`
(status 200), a `RedirectResponse` with its status code and target, or a
`JSONResponse` with its status code, JSON body, an optional
`set_cookie` instruction and an optional `delete_cookie` instruction
(carrying the cookie name to delete). -/
inductive Response where
  | html (status : Nat) (content : String)
  | redirect (status : Nat) (location : String)
  | json (status : Nat) (body : PyJson) (setCookie : Option CookieSet)
      (deleteCookie : Option String)

/-- What one call of `AuthGateMiddleware.dispatch` does with a request:
answer it with a direct response, forward it to the wrapped downstream
application (`await call_next(request)`), or let a Python exception
escape the middleware (named by its exception class). -/
inductive GateResult where
  | respond (r : Response)
  | forward
  | pythonError (exc : String)

/-- Process-wide configuration read once at import time: the `API_KEY`
environment value (empty string when absent), the SHA-256 hex digest
function from the Python standard library, and the two static pages. -/
structure Config where
  apiKey : String
  sha256hex : String → String
  loginHtml : String
  appHtml : String

/-- `COOKIE_NAME = "fw_auth"`. -/
def COOKIE_NAME : String := "fw_auth"

/-- `COOKIE_MAX_AGE = 30 * 24 * 60 * 60` (30 days in seconds). -/
def COOKIE_MAX_AGE : Nat := 30 * 24 * 60 * 60

/-- `COOKIE_VALUE = hashlib.sha256(f"fw:\x7bAPI_KEY\x7d".encode()).hexdigest()[:32]
if API_KEY else ""`. -/
def COOKIE_VALUE (cfg : Config) : String :=
  if cfg.apiKey ≠ "" then (cfg.sha256hex ("fw:" ++ cfg.apiKey)).take 32 else ""

/-- `OPEN_PATHS`: the paths that never require authentication. -/
def OPEN_PATHS : List String :=
  ["/login", "/auth/validate", "/auth/logout", "/health", "/docs",
   "/openapi.json", "/favicon.ico"]

/-- `AuthGateMiddleware._handle_auth_routes`: handles the login page and
the auth endpoints directly in the middleware; all other open paths pass
through to the wrapped application. -/
def handleAuthRoutes (cfg : Config) (req : Request) : GateResult :=
  if req.path = "/login" then
    if cfg.apiKey ≠ "" ∧ req.fwAuthCookie = some (COOKIE_VALUE cfg) then
      .respond (.redirect 302 "/")
    else if cfg.apiKey = "" then
      .respond (.redirect 302 "/")
    else
      .respond (.html 200 cfg.loginHtml)
  else if req.path = "/auth/validate" ∧ req.method = "POST" then
    match req.body with
    | .invalid =>
        .respond (.json 400
          (.obj [("valid", .bool false), ("error", .str "Invalid request")])
          none none)
    | .parsed (.obj fields) =>
        if pyEqStr (dictGet fields "key") cfg.apiKey then
          .respond (.json 200 (.obj [("valid", .bool true)])
            (some ⟨COOKIE_NAME, COOKIE_VALUE cfg, COOKIE_MAX_AGE, true, "lax", true⟩)
            none)
        else
          .respond (.json 401
            (.obj [("valid", .bool false), ("error", .str "Invalid API key")])
            none none)
    | .parsed _ =>
        .pythonError "AttributeError"
  else if req.path = "/auth/logout" ∧ req.method = "POST" then
    .respond (.json 200 (.obj [("success", .bool true)]) none (some COOKIE_NAME))
  else
    .forward

/-- `AuthGateMiddleware.dispatch`: the top-level gate decision. -/
def dispatch (cfg : Config) (req : Request) : GateResult :=
  if req.path ∈ OPEN_PATHS then
    handleAuthRoutes cfg req
  else if cfg.apiKey = "" then
    (if req.path = "/" then .respond (.html 200 cfg.appHtml) else .forward)
  else if strStartsWith (req.authorization.getD "") "Bearer " then
    .forward
  else if req.fwAuthCookie = some (COOKIE_VALUE cfg) then
    (if req.path = "/" then .respond (.html 200 cfg.appHtml) else .forward)
  else
    .respond (.redirect 302 "/login")

/-- Whether a gate outcome is a 302 redirect to the login path. -/
def isLoginRedirect : GateResult → Bool
  | .respond (.redirect s l) => s == 302 && l == "/login"
  | _ => false

/-- The `set_cookie` instruction of a gate outcome, if any. -/
def setCookieOf : GateResult → Option CookieSet
  | .respond (.json _ _ c _) => c
  | _ => none

/-- The Gate's decision algorithm exactly as the specification words it,
with first match winning: (1) open path → auth route handler; (2) no
configured secret → forward, except the root path serves the static
application page; (3) an `Authorization` header present whose value
begins with the literal "Bearer " → forward unconditionally; (4) a
`fw_auth` cookie whose value equals the derived token → forward, the
root path serving the static application page; (5) otherwise a 302
redirect to the login path. -/
def gateDecisionSpec (cfg : Config) (req : Request) : GateResult :=
  if req.path ∈ OPEN_PATHS then
    handleAuthRoutes cfg req
  else if cfg.apiKey = "" then
    (if req.path = "/" then .respond (.html 200 cfg.appHtml) else .forward)
  else if (match req.authorization with
           | some v => strStartsWith v "Bearer "
           | none => false) then
    .forward
  else if req.fwAuthCookie = some (COOKIE_VALUE cfg) then
    (if req.path = "/" then .respond (.html 200 cfg.appHtml) else .forward)
  else
    .respond (.redirect 302 "/login")

/-- A fixed 64-character hex string standing in for a SHA-256 hex digest
in concrete instantiations of the abstract digest function. -/
def demoDigest : String → String :=
  fun _ => "9a271f2a916b0b6ee6cecb2426f0b320e6f074578be55d9bc94f6f3fe3ab86aa"

/-- A concrete gated configuration (secret `"secret"`) for witnesses. -/
def cfgDemo : Config := ⟨"secret", demoDigest, "LOGIN_PAGE", "APP_PAGE"⟩

/-- A concrete open-mode configuration (no secret) for witnesses. -/
def cfgOpen : Config := ⟨"", demoDigest, "LOGIN_PAGE", "APP_PAGE"⟩

/-- A successful validation request: POST to the validate path whose
body parses to a JSON object whose key field is the demo secret. -/
def reqValidateOk : Request :=
  ⟨"/auth/validate", "POST", none, none, .parsed (.obj [("key", .str "secret")])⟩

/-- The cookie the demo configuration issues on successful validation. -/
def ckDemo : CookieSet :=
  ⟨"fw_auth", COOKIE_VALUE cfgDemo, 2592000, true, "lax", true⟩

/-! ## Helper lemmas -/

/-- The auth route handler never answers with a redirect to the login
path: its redirects all target the root path. -/
theorem handleAuthRoutes_no_login_redirect (cfg : Config) (req : Request) :
    isLoginRedirect (handleAuthRoutes cfg req) = false := by
  unfold handleAuthRoutes
  repeat' split
  all_goals rfl

/-- Truncating a 64-character string to its first 32 characters yields a
non-empty string. -/
theorem take32_of_length64_ne_empty (s : String) (h : s.length = 64) :
    s.take 32 ≠ "" := by
  intro he
  have h2 : (s.take 32).length = 0 := by rw [he]; rfl
  rw [String.take_eq] at h2
  have h3 : (s.data.take 32).length = 0 := h2
  rw [List.length_take] at h3
  have h4 : s.data.length = 64 := h
  omega

/-- Every `set_cookie` instruction the gate ever issues carries the
derived token as its value. -/
theorem setCookieOf_dispatch (cfg : Config) (req : Request) (ck : CookieSet)
    (h : setCookieOf (dispatch cfg req) = some ck) :
    ck.value = COOKIE_VALUE cfg := by
  unfold dispatch handleAuthRoutes at h
  repeat' split at h
  all_goals first
    | (simp only [setCookieOf, Option.some.injEq] at h
       rw [← h])
    | simp [setCookieOf] at h

/-! ## Claim theorems -/

/-- C1: the claim asserts that every POST to the validate path whose body
is parseable JSON but does not match the configured secret yields a 401
or 400 rather than an unhandled exception.  The code violates this: a
body that parses to a non-object JSON value (here the JSON number 42)
makes `data.get("key")` raise an `AttributeError`, which the handler's
`except (json.JSONDecodeError, UnicodeDecodeError)` clause does not
catch, so the exception escapes the middleware instead of producing a
400 or 401 response. -/
theorem C1_nonobject_body_uncaught_exception :
    dispatch cfgDemo ⟨"/auth/validate", "POST", none, none, .parsed (.num 42)⟩
      = .pythonError "AttributeError" := rfl

/-- C2: for every inbound request, `dispatch` decides exactly by the
five-step first-match-wins algorithm of the specification: open paths go
to the auth route handler; with no configured secret everything is
forwarded (root serving the static application page); an Authorization
header starting with "Bearer " forwards unconditionally; a `fw_auth` cookie equal
to the derived token forwards (root serving the static application
page); otherwise a 302 redirect to the login path. -/
theorem C2_dispatch_follows_spec_order (cfg : Config) (req : Request) :
    dispatch cfg req = gateDecisionSpec cfg req := by
  obtain ⟨p, m, a, c, b⟩ := req
  cases a <;> rfl

/-- C3: for every request whose path is in the Open Path Set, the gate
never answers with a 302 redirect to the login path. -/
theorem C3_open_paths_never_login_redirect (cfg : Config) (req : Request)
    (h : req.path ∈ OPEN_PATHS) :
    isLoginRedirect (dispatch cfg req) = false := by
  unfold dispatch
  rw [if_pos h]
  exact handleAuthRoutes_no_login_redirect cfg req

/-- Witness for C3 at a concrete open-path request. -/
theorem C3_witness :
    "/health" ∈ OPEN_PATHS ∧
      isLoginRedirect (dispatch cfgDemo ⟨"/health", "GET", none, none, .invalid⟩)
        = false :=
  ⟨by decide,
   C3_open_paths_never_login_redirect cfgDemo
     ⟨"/health", "GET", none, none, .invalid⟩ (by decide)⟩

/-- C4: every POST to the validate path whose body is a JSON object
whose key field equals the configured secret (exact string equality) is
answered 200 with body valid=true, setting a cookie named `fw_auth`
whose value is the derived token, with max-age 2592000 seconds
(30 days), HTTP-only, SameSite lax, and Secure. -/
theorem C4_validate_success_sets_cookie (cfg : Config) (req : Request)
    (fields : List (String × PyJson))
    (hp : req.path = "/auth/validate") (hm : req.method = "POST")
    (hb : req.body = .parsed (.obj fields))
    (hk : dictGet fields "key" = some (.str cfg.apiKey)) :
    dispatch cfg req =
      .respond (.json 200 (.obj [("valid", .bool true)])
        (some ⟨"fw_auth", COOKIE_VALUE cfg, 2592000, true, "lax", true⟩)
        none) := by
  obtain ⟨p, m, a, c, b⟩ := req
  subst hp hm hb
  simp [dispatch, handleAuthRoutes, OPEN_PATHS, pyEqStr, hk, COOKIE_NAME,
    COOKIE_MAX_AGE]

/-- Witness for C4 at the demo secret and a concrete matching request. -/
theorem C4_witness :
    reqValidateOk.path = "/auth/validate" ∧ reqValidateOk.method = "POST" ∧
      reqValidateOk.body = .parsed (.obj [("key", .str "secret")]) ∧
      dictGet [("key", .str "secret")] "key" = some (.str cfgDemo.apiKey) ∧
      dispatch cfgDemo reqValidateOk =
        .respond (.json 200 (.obj [("valid", .bool true)])
          (some ⟨"fw_auth", COOKIE_VALUE cfgDemo, 2592000, true, "lax", true⟩)
          none) :=
  ⟨rfl, rfl, rfl, rfl,
   C4_validate_success_sets_cookie cfgDemo reqValidateOk
     [("key", .str "secret")] rfl rfl rfl rfl⟩

/-- C5: for every request to a non-open path, when a secret is
configured and the Authorization header value begins with the literal
"Bearer ", the gate forwards to the downstream handler — whatever the
request's cookies are. -/
theorem C5_bearer_header_forwards (cfg : Config) (req : Request)
    (hp : req.path ∉ OPEN_PATHS) (hk : cfg.apiKey ≠ "") (v : String)
    (ha : req.authorization = some v)
    (hv : strStartsWith v "Bearer " = true) :
    dispatch cfg req = .forward := by
  unfold dispatch
  rw [if_neg hp, if_neg hk, ha]
  simp only [Option.getD_some]
  rw [if_pos hv]

/-- Witness for C5 at a concrete bearer-token request carrying an
arbitrary (wrong) cookie. -/
theorem C5_witness :
    ("/v1/audio" : String) ∉ OPEN_PATHS ∧ ("secret" : String) ≠ "" ∧
      (⟨"/v1/audio", "POST", some "Bearer tok", some "wrong", .invalid⟩ :
          Request).authorization = some "Bearer tok" ∧
      strStartsWith "Bearer tok" "Bearer " = true ∧
      dispatch cfgDemo ⟨"/v1/audio", "POST", some "Bearer tok", some "wrong", .invalid⟩
        = .forward :=
  ⟨by decide, by decide, rfl, by decide,
   C5_bearer_header_forwards cfgDemo
     ⟨"/v1/audio", "POST", some "Bearer tok", some "wrong", .invalid⟩
     (by decide) (by decide) "Bearer tok" rfl (by decide)⟩

/-- C6: with no configured secret the gate never answers with a 302
redirect to the login path, and every request to a non-open path is
forwarded, except the root path, which is served the static application
page directly. -/
theorem C6_open_mode_never_redirects (cfg : Config) (req : Request)
    (hk : cfg.apiKey = "") :
    isLoginRedirect (dispatch cfg req) = false ∧
      (req.path ∉ OPEN_PATHS →
        dispatch cfg req =
          if req.path = "/" then .respond (.html 200 cfg.appHtml)
          else .forward) := by
  refine ⟨?_, ?_⟩
  · by_cases hopen : req.path ∈ OPEN_PATHS
    · unfold dispatch
      rw [if_pos hopen]
      exact handleAuthRoutes_no_login_redirect cfg req
    · unfold dispatch
      rw [if_neg hopen, if_pos hk]
      by_cases hr : req.path = "/"
      · rw [if_pos hr]; rfl
      · rw [if_neg hr]; rfl
  · intro hp
    unfold dispatch
    rw [if_neg hp, if_pos hk]

/-- Witness for C6 at a concrete non-open, non-root request in open
mode. -/
theorem C6_witness :
    cfgOpen.apiKey = "" ∧
      (isLoginRedirect (dispatch cfgOpen ⟨"/v1/audio", "GET", none, none, .invalid⟩)
          = false ∧
        (("/v1/audio" : String) ∉ OPEN_PATHS →
          dispatch cfgOpen ⟨"/v1/audio", "GET", none, none, .invalid⟩ =
            if ("/v1/audio" : String) = "/" then
              .respond (.html 200 cfgOpen.appHtml)
            else .forward)) :=
  ⟨rfl,
   C6_open_mode_never_redirects cfgOpen
     ⟨"/v1/audio", "GET", none, none, .invalid⟩ rfl⟩

/-- C7: every POST to the logout path — whatever its cookies, headers,
body or authentication state — is answered 200 with body success=true
and an instruction to delete the `fw_auth` cookie. -/
theorem C7_logout_always_succeeds (cfg : Config) (req : Request)
    (hp : req.path = "/auth/logout") (hm : req.method = "POST") :
    dispatch cfg req =
      .respond (.json 200 (.obj [("success", .bool true)]) none
        (some "fw_auth")) := by
  obtain ⟨p, m, a, c, b⟩ := req
  subst hp hm
  rfl

/-- Witness for C7 at a concrete logout request that is unauthenticated
and carries a junk body. -/
theorem C7_witness :
    (⟨"/auth/logout", "POST", none, some "junk", .invalid⟩ : Request).path
        = "/auth/logout" ∧
      (⟨"/auth/logout", "POST", none, some "junk", .invalid⟩ : Request).method
        = "POST" ∧
      dispatch cfgDemo ⟨"/auth/logout", "POST", none, some "junk", .invalid⟩
        = .respond (.json 200 (.obj [("success", .bool true)]) none
            (some "fw_auth")) :=
  ⟨rfl, rfl,
   C7_logout_always_succeeds cfgDemo
     ⟨"/auth/logout", "POST", none, some "junk", .invalid⟩ rfl rfl⟩

/-- C8: a request to the login path is answered with a 302 redirect to
the root path when gating is disabled or the request carries a `fw_auth`
cookie equal to the derived token, and with the static login page
content otherwise. -/
theorem C8_login_redirects_or_serves_page (cfg : Config) (req : Request)
    (hp : req.path = "/login") :
    dispatch cfg req =
      if cfg.apiKey = "" ∨ req.fwAuthCookie = some (COOKIE_VALUE cfg) then
        .respond (.redirect 302 "/")
      else
        .respond (.html 200 cfg.loginHtml) := by
  obtain ⟨p, m, a, c, b⟩ := req
  subst hp
  by_cases h1 : cfg.apiKey = ""
  · simp [dispatch, handleAuthRoutes, OPEN_PATHS, h1]
  · by_cases h2 : c = some (COOKIE_VALUE cfg)
    · simp [dispatch, handleAuthRoutes, OPEN_PATHS, h1, h2]
    · simp [dispatch, handleAuthRoutes, OPEN_PATHS, h1, h2]

/-- Witness for C8 at a concrete unauthenticated login-page request with
the demo secret configured. -/
theorem C8_witness :
    (⟨"/login", "GET", none, none, .invalid⟩ : Request).path = "/login" ∧
      dispatch cfgDemo ⟨"/login", "GET", none, none, .invalid⟩ =
        if cfgDemo.apiKey = "" ∨
            (⟨"/login", "GET", none, none, .invalid⟩ : Request).fwAuthCookie
              = some (COOKIE_VALUE cfgDemo) then
          .respond (.redirect 302 "/")
        else
          .respond (.html 200 cfgDemo.loginHtml) :=
  ⟨rfl,
   C8_login_redirects_or_serves_page cfgDemo
     ⟨"/login", "GET", none, none, .invalid⟩ rfl⟩

/-- C9: the derived token is non-empty exactly when the configured
secret is non-empty; when defined it is the first 32 characters of the
hex digest of the hash of the fixed salt "fw:" concatenated with the
secret; and any two cookies the gate ever sets (in particular by two
successful validate calls under the same secret) carry the same value. -/
theorem C9_derived_token_stable (cfg : Config)
    (hlen : (cfg.sha256hex ("fw:" ++ cfg.apiKey)).length = 64)
    (r1 r2 : Request) (c1 c2 : CookieSet)
    (h1 : setCookieOf (dispatch cfg r1) = some c1)
    (h2 : setCookieOf (dispatch cfg r2) = some c2) :
    (COOKIE_VALUE cfg ≠ "" ↔ cfg.apiKey ≠ "") ∧
      (cfg.apiKey = "" ∧ COOKIE_VALUE cfg = "" ∨
        cfg.apiKey ≠ "" ∧
          COOKIE_VALUE cfg = (cfg.sha256hex ("fw:" ++ cfg.apiKey)).take 32) ∧
      c1.value = c2.value := by
  refine ⟨⟨fun hCV hA => hCV (by simp [COOKIE_VALUE, hA]), fun hA => ?_⟩, ?_, ?_⟩
  · rw [COOKIE_VALUE, if_pos hA]
    exact take32_of_length64_ne_empty _ hlen
  · by_cases hA : cfg.apiKey = ""
    · exact Or.inl ⟨hA, by simp [COOKIE_VALUE, hA]⟩
    · exact Or.inr ⟨hA, by rw [COOKIE_VALUE, if_pos hA]⟩
  · rw [setCookieOf_dispatch cfg r1 c1 h1, setCookieOf_dispatch cfg r2 c2 h2]

/-- Witness for C9 at the demo secret, with both cookie-setting requests
being the same concrete successful validate call. -/
theorem C9_witness :
    (cfgDemo.sha256hex ("fw:" ++ cfgDemo.apiKey)).length = 64 ∧
      setCookieOf (dispatch cfgDemo reqValidateOk) = some ckDemo ∧
      ((COOKIE_VALUE cfgDemo ≠ "" ↔ cfgDemo.apiKey ≠ "") ∧
        (cfgDemo.apiKey = "" ∧ COOKIE_VALUE cfgDemo = "" ∨
          cfgDemo.apiKey ≠ "" ∧
            COOKIE_VALUE cfgDemo =
              (cfgDemo.sha256hex ("fw:" ++ cfgDemo.apiKey)).take 32) ∧
        ckDemo.value = ckDemo.value) :=
  ⟨by rfl, rfl,
   C9_derived_token_stable cfgDemo (by rfl) reqValidateOk reqValidateOk
     ckDemo ckDemo rfl rfl⟩

/-- C10: a request to the validate or logout path whose method is not
POST is not answered by the auth routes: it falls through to the
downstream handler. -/
theorem C10_non_post_auth_paths_fall_through (cfg : Config) (req : Request)
    (hp : req.path = "/auth/validate" ∨ req.path = "/auth/logout")
    (hm : req.method ≠ "POST") :
    dispatch cfg req = .forward := by
  obtain ⟨p, m, a, c, b⟩ := req
  rcases hp with hp | hp <;> subst hp <;>
    simp [dispatch, handleAuthRoutes, OPEN_PATHS, hm]

/-- Witness for C10: a GET to the validate path reaches the wrapped
service. -/
theorem C10_witness :
    ((⟨"/auth/validate", "GET", none, none, .invalid⟩ : Request).path
          = "/auth/validate" ∨
        (⟨"/auth/validate", "GET", none, none, .invalid⟩ : Request).path
          = "/auth/logout") ∧
      (⟨"/auth/validate", "GET", none, none, .invalid⟩ : Request).method
        ≠ "POST" ∧
      dispatch cfgDemo ⟨"/auth/validate", "GET", none, none, .invalid⟩
        = .forward :=
  ⟨Or.inl rfl, by decide,
   C10_non_post_auth_paths_fall_through cfgDemo
     ⟨"/auth/validate", "GET", none, none, .invalid⟩ (Or.inl rfl) (by decide)⟩

end AuthWrapper
